import Mathlib

/-!
Shallow embedding of the Battery_Plotter repository (src/main.py) and proofs
of the specification claims.

The repository is a single Python module: a tabular-data loader with a
three-way format dispatch, a smoothing dispatch (Savitzky-Golay filter,
trailing moving average, z-score normalisation), a broken peak finder, four
chart renderers, and a report orchestrator.  Numeric series are modelled as
lists of real numbers; Python exceptions are modelled by an `Except` result;
the filesystem and the ordering of side effects are modelled by an explicit
state record threaded through each function, with an event trace recording
reader invocations, directory creation, smoothing completion, renderer
invocation and file writes.
-/

/-- Errors raised by the Python code, following the taxonomy of the spec.
The constructors `unsupportedFormat` (main.py line 23) and
`unsupportedMethod` (line 48) are both `ValueError` in Python with a message
naming the offending tag; `invalidParameter` models the parameter validation
that `scipy.signal.savgol_filter` performs itself; `keyError` models the
pandas `KeyError` raised on a missing column; `nameError` models the Python
`NameError` raised when an undefined global is referenced; `readError`
models an `IOError`/`ParseError` propagated from an underlying pandas
reader. -/
inductive PyErr where
  | unsupportedFormat (fmt : String)
  | unsupportedMethod (method : String)
  | invalidParameter (msg : String)
  | keyError (key : String)
  | nameError (name : String)
  | readError (path : String)
deriving DecidableEq

/-- Tabular Dataset: an ordered collection of named numeric columns, as in
the spec section 3.  A pandas DataFrame is modelled as an association list
from column names to numeric columns; `data[name]` is modelled by
`List.lookup`. -/
abbrev Dataset := List (String × List ℝ)

/-- Chart artifact written by a renderer: the plotted x and y series and
whether the x axis is logarithmic (the impedance renderer sets
`plt.xscale(log)`, main.py line 88). -/
structure PlotFile where
  xs : List ℝ
  ys : List ℝ
  logx : Bool

/-- Observable events of a run, used to state ordering properties:
`readerCall` is an invocation of an underlying pandas reader (main.py
line 26), `mkdirCall` is `os.makedirs` (line 145), `printErrorCall` is the
error log in `load_data` (line 28), `smoothDone` marks completion of a
`smooth_data` call in the orchestrator (lines 149-152), `renderCall` marks
entry into one of the four renderers (lines 155-158), `fileWrite` is
`plt.savefig` (lines 76, 94, 111, 128), and `printReport` is the completion
notice (line 160). -/
inductive Event where
  | readerCall (fmt : String) (path : String)
  | mkdirCall (dir : String)
  | printErrorCall (path : String)
  | smoothDone (col : String)
  | renderCall (chart : String)
  | fileWrite (path : String)
  | printReport (dir : String)
deriving DecidableEq

/-- State of one run: the directories that exist, the image files written
(newest first, so `List.lookup` sees the most recent write), and the event
trace in chronological order. -/
structure RState where
  dirs : List String
  files : List (String × PlotFile)
  events : List Event

/-- Formats accepted by `load_data`, main.py lines 16-20 (keys of the
`supported_formats` dictionary). -/
def supported_formats : List String := ["csv", "excel", "json"]

/-- Embedding of `load_data` (main.py lines 9-29).  The underlying pandas
readers are external code, so they are passed in as an oracle `readers`
mapping a format tag and a path to a parsed Dataset or a propagated read
error.  An unsupported tag raises before any reader is invoked; a reader
failure is logged (`print`) and re-raised. -/
def load_data (readers : String → String → Except PyErr Dataset)
    (file_path : String) (file_format : String) (s : RState) :
    Except PyErr Dataset × RState :=
  if file_format ∈ supported_formats then
    let s1 : RState := { s with events := s.events ++ [Event.readerCall file_format file_path] }
    match readers file_format file_path with
    | .ok d => (.ok d, s1)
    | .error e => (.error e, { s1 with events := s1.events ++ [Event.printErrorCall file_path] })
  else
    (.error (.unsupportedFormat file_format), s)

/-- Mean of a list of reals, as computed by `numpy` (sum divided by
length). -/
noncomputable def listMean (ys : List ℝ) : ℝ := ys.sum / ys.length

/-- Population variance of a list of reals (`ddof = 0`, the default of
`scipy.stats.zscore`). -/
noncomputable def listVar (ys : List ℝ) : ℝ :=
  ((ys.map fun x => (x - listMean ys) ^ 2).sum) / ys.length

/-- Modelled from the spec: `scipy.stats.zscore` (called at main.py
line 46) is external library code; each value is replaced by
(value - mean) / standard deviation over the whole series, with the
population standard deviation. -/
noncomputable def zscore (ys : List ℝ) : List ℝ :=
  ys.map fun x => (x - listMean ys) / Real.sqrt (listVar ys)

/-- Modelled from the spec: `pandas.Series.rolling(window).mean()` (called
at main.py line 44) is external library code; it returns a series of the
same length whose entry at position i is the arithmetic mean of the
trailing window ending at i, and is missing (NaN, modelled as `none`) while
fewer than `w` observations are available.  An empty window (w = 0) yields
a missing value. -/
noncomputable def rolling_mean (ys : List ℝ) (w : ℕ) : List (Option ℝ) :=
  (List.range ys.length).map fun i =>
    if i + 1 < w ∨ w = 0 then none
    else some ((((ys.drop (i + 1 - w)).take w).sum) / w)

/-- Moment matrix of the least-squares normal equations for fitting a
polynomial of degree p to the points (x, ys x), x = 0, ..., n-1: entry
(j, k) is the sum of x ^ (j + k). -/
noncomputable def momentMatrix (n p : ℕ) : Matrix (Fin (p + 1)) (Fin (p + 1)) ℝ :=
  Matrix.of fun j k => ∑ x ∈ Finset.range n, (x : ℝ) ^ ((j : ℕ) + (k : ℕ))

/-- Right-hand side of the least-squares normal equations: entry j is the
sum of x ^ j times the sample at x. -/
noncomputable def momentVec (ys : List ℝ) (p : ℕ) : Fin (p + 1) → ℝ :=
  fun j => ∑ x ∈ Finset.range ys.length, (x : ℝ) ^ (j : ℕ) * ys.getD x 0

/-- Value at t of the least-squares polynomial of degree p fitted to the
samples ys placed at abscissae 0, ..., ys.length - 1.  The unique
least-squares coefficients (when the normal matrix is invertible) are
computed by Cramer's rule. -/
noncomputable def polyfitEval (ys : List ℝ) (p : ℕ) (t : ℝ) : ℝ :=
  ∑ k : Fin (p + 1),
    ((momentMatrix ys.length p).cramer (momentVec ys p) k / (momentMatrix ys.length p).det)
      * t ^ (k : ℕ)

/-- Modelled from the spec: the smoothing pass of
`scipy.signal.savgol_filter` in its default mode interp (called at main.py
line 42) is external library code.  Interior points take the value at the
centre of a least-squares polynomial fit over the window centred there;
the first and last half-windows take the values of a polynomial fitted to
the first, respectively last, `w` samples. -/
noncomputable def savgolInterp (data : List ℝ) (w p : ℕ) : List ℝ :=
  let n := data.length
  let m := w / 2
  (List.range n).map fun i =>
    if i < m then polyfitEval (data.take w) p (i : ℝ)
    else if i + m < n then polyfitEval ((data.drop (i - m)).take w) p (m : ℝ)
    else polyfitEval (data.drop (n - w)) p (((i - (n - w) : ℕ)) : ℝ)

/-- Modelled from the spec: parameter validation of
`scipy.signal.savgol_filter` (window size odd and greater than the
polynomial order, and in mode interp not larger than the data), then the
smoothing pass. -/
noncomputable def savgol_filter (data : List ℝ) (window_length polyorder : ℕ) :
    Except PyErr (List ℝ) :=
  if window_length % 2 = 0 then
    .error (.invalidParameter "window_length must be odd")
  else if window_length ≤ polyorder then
    .error (.invalidParameter "polyorder must be less than window_length")
  else if data.length < window_length then
    .error (.invalidParameter "window_length must not exceed the data size")
  else
    .ok (savgolInterp data window_length polyorder)

/-- Embedding of `smooth_data` (main.py lines 32-48): three-way method
dispatch, raising for an unknown tag.  The moving-average branch may
contain missing values, so the common result type is a list of optional
reals; the savgol and zscore branches never produce missing values. -/
noncomputable def smooth_data (data : List ℝ) (method : String)
    (window_size poly_order : ℕ) : Except PyErr (List (Option ℝ)) :=
  if method = "savgol" then
    match savgol_filter data window_size poly_order with
    | .ok r => .ok (r.map some)
    | .error e => .error e
  else if method = "moving_average" then
    .ok (rolling_mean data window_size)
  else if method = "zscore" then
    .ok ((zscore data).map some)
  else
    .error (.unsupportedMethod method)

/-- Embedding of `find_peaks_in_data` (main.py lines 51-60).  Its body
references the global `find_peaks`, which is neither imported (line 4 only
imports `savgol_filter` from `scipy.signal`) nor defined anywhere in the
module, so every call raises `NameError` before computing anything. -/
def find_peaks_in_data (data : List ℝ) (threshold : ℝ) (min_distance : ℕ) :
    Except PyErr (List ℕ × List ℝ) :=
  .error (.nameError "find_peaks")

/-- Access `data[name]` on a Dataset: the column when present, a `KeyError`
otherwise. -/
def lookupCol (data : Dataset) (name : String) : Except PyErr (List ℝ) :=
  match data.lookup name with
  | some col => .ok col
  | none => .error (.keyError name)

/-- Embedding of `plot_voltage_curve` (main.py lines 63-77): reads the
time and voltage columns in that order and writes one chart file with a
linear x axis. -/
def plot_voltage_curve (data : Dataset) (output_file : String) (s : RState) :
    Except PyErr Unit × RState :=
  let s0 : RState := { s with events := s.events ++ [Event.renderCall "plot_voltage_curve"] }
  match lookupCol data "time" with
  | .error e => (.error e, s0)
  | .ok xs =>
    match lookupCol data "voltage" with
    | .error e => (.error e, s0)
    | .ok ys =>
      (.ok (), { s0 with
        files := (output_file, { xs := xs, ys := ys, logx := false }) :: s0.files,
        events := s0.events ++ [Event.fileWrite output_file] })

/-- Embedding of `plot_impedance` (main.py lines 80-95): reads the
frequency and impedance columns in that order and writes one chart file
with a logarithmic x axis. -/
def plot_impedance (data : Dataset) (output_file : String) (s : RState) :
    Except PyErr Unit × RState :=
  let s0 : RState := { s with events := s.events ++ [Event.renderCall "plot_impedance"] }
  match lookupCol data "frequency" with
  | .error e => (.error e, s0)
  | .ok xs =>
    match lookupCol data "impedance" with
    | .error e => (.error e, s0)
    | .ok ys =>
      (.ok (), { s0 with
        files := (output_file, { xs := xs, ys := ys, logx := true }) :: s0.files,
        events := s0.events ++ [Event.fileWrite output_file] })

/-- Embedding of `plot_xrd` (main.py lines 98-112): reads the 2theta and
intensity columns in that order and writes one chart file. -/
def plot_xrd (data : Dataset) (output_file : String) (s : RState) :
    Except PyErr Unit × RState :=
  let s0 : RState := { s with events := s.events ++ [Event.renderCall "plot_xrd"] }
  match lookupCol data "2theta" with
  | .error e => (.error e, s0)
  | .ok xs =>
    match lookupCol data "intensity" with
    | .error e => (.error e, s0)
    | .ok ys =>
      (.ok (), { s0 with
        files := (output_file, { xs := xs, ys := ys, logx := false }) :: s0.files,
        events := s0.events ++ [Event.fileWrite output_file] })

/-- Embedding of `plot_capacity_vs_cycle` (main.py lines 115-129): reads
the cycle and capacity columns in that order and writes one chart file. -/
def plot_capacity_vs_cycle (data : Dataset) (output_file : String) (s : RState) :
    Except PyErr Unit × RState :=
  let s0 : RState := { s with events := s.events ++ [Event.renderCall "plot_capacity_vs_cycle"] }
  match lookupCol data "cycle" with
  | .error e => (.error e, s0)
  | .ok xs =>
    match lookupCol data "capacity" with
    | .error e => (.error e, s0)
    | .ok ys =>
      (.ok (), { s0 with
        files := (output_file, { xs := xs, ys := ys, logx := false }) :: s0.files,
        events := s0.events ++ [Event.fileWrite output_file] })

/-- Embedding of the guarded directory creation at main.py lines 144-145:
`if not os.path.exists(output_dir): os.makedirs(output_dir)`.  This step
cannot raise: a pre-existing directory is left untouched. -/
def ensure_output_dir (dir : String) (s : RState) : RState :=
  if dir ∈ s.dirs then s
  else { s with dirs := dir :: s.dirs, events := s.events ++ [Event.mkdirCall dir] }

/-- Embedding of `os.path.join` for a directory with no trailing
separator. -/
def path_join (a b : String) : String := a ++ "/" ++ b

/-- Embedding of the chart block of `generate_report` (main.py lines
155-160): the four renderer calls in source order, each receiving the
Dataset as loaded, followed by the completion notice.  Any renderer error
propagates unchanged and stops the sequence. -/
def render_all (d : Dataset) (output_dir : String) (s : RState) :
    Except PyErr Unit × RState :=
  match plot_voltage_curve d (path_join output_dir "charge_discharge_curve.png") s with
  | (.error e, s4) => (.error e, s4)
  | (.ok _, s4) =>
    match plot_impedance d (path_join output_dir "impedance_spectrum.png") s4 with
    | (.error e, s5) => (.error e, s5)
    | (.ok _, s5) =>
      match plot_xrd d (path_join output_dir "xrd_tem.png") s5 with
      | (.error e, s6) => (.error e, s6)
      | (.ok _, s6) =>
        match plot_capacity_vs_cycle d (path_join output_dir "capacity_vs_cycle.png") s6 with
        | (.error e, s7) => (.error e, s7)
        | (.ok _, s7) =>
          (.ok (), { s7 with events := s7.events ++ [Event.printReport output_dir] })

/-- Embedding of `generate_report` (main.py lines 132-160): ensure the
output directory, load the Dataset, smooth the voltage then the impedance
column (the two smoothed series are bound to local names and never used
again, exactly as in the source), then run the four renderers on the
Dataset as loaded, and finally print a completion notice.  Any error
propagates unchanged, keeping the state reached so far. -/
noncomputable def generate_report (readers : String → String → Except PyErr Dataset)
    (data : String) (output_dir file_format noise_method : String)
    (smooth_window smooth_polyorder : ℕ) (s : RState) :
    Except PyErr Unit × RState :=
  let s0 := ensure_output_dir output_dir s
  match load_data readers data file_format s0 with
  | (.error e, s1) => (.error e, s1)
  | (.ok d, s1) =>
    match lookupCol d "voltage" with
    | .error e => (.error e, s1)
    | .ok voltage_col =>
      match smooth_data voltage_col noise_method smooth_window smooth_polyorder with
      | .error e => (.error e, s1)
      | .ok _smoothed_voltage =>
        let s2 : RState := { s1 with events := s1.events ++ [Event.smoothDone "voltage"] }
        match lookupCol d "impedance" with
        | .error e => (.error e, s2)
        | .ok impedance_col =>
          match smooth_data impedance_col noise_method smooth_window smooth_polyorder with
          | .error e => (.error e, s2)
          | .ok _smoothed_impedance =>
            let s3 : RState := { s2 with events := s2.events ++ [Event.smoothDone "impedance"] }
            render_all d output_dir s3

/-- Temporal property of an event trace: wherever a renderer invocation
occurs, both smoothing calls (voltage and impedance) have already
completed earlier in the trace. -/
def noRenderBefore (tr : List Event) : Prop :=
  ∀ pre chart post, tr = pre ++ Event.renderCall chart :: post →
    Event.smoothDone "voltage" ∈ pre ∧ Event.smoothDone "impedance" ∈ pre

/-- Concrete Dataset with all eight expected columns, used to exercise the
theorems on a specific input. -/
def demoData : Dataset :=
  [("time", [0]), ("voltage", [1]), ("frequency", [2]), ("impedance", [3]),
   ("2theta", [4]), ("intensity", [5]), ("cycle", [6]), ("capacity", [7])]

/-- Reader oracle that parses every path in every format to `demoData`. -/
def demoReaders : String → String → Except PyErr Dataset :=
  fun _ _ => .ok demoData

/-- Fresh initial state: no directories, no files, empty trace. -/
def demoState : RState := { dirs := [], files := [], events := [] }

/-- Final state of the run of the orchestrator on `demoReaders`, path
data.csv, output directory out, format csv, method zscore, window 11 and
polynomial order 3, starting from `demoState`. -/
def demoFinal : RState :=
  { dirs := ["out"],
    files :=
      [(path_join "out" "capacity_vs_cycle.png", { xs := [6], ys := [7], logx := false }),
       (path_join "out" "xrd_tem.png", { xs := [4], ys := [5], logx := false }),
       (path_join "out" "impedance_spectrum.png", { xs := [2], ys := [3], logx := true }),
       (path_join "out" "charge_discharge_curve.png", { xs := [0], ys := [1], logx := false })],
    events :=
      [Event.mkdirCall "out", Event.readerCall "csv" "data.csv",
       Event.smoothDone "voltage", Event.smoothDone "impedance",
       Event.renderCall "plot_voltage_curve",
       Event.fileWrite (path_join "out" "charge_discharge_curve.png"),
       Event.renderCall "plot_impedance",
       Event.fileWrite (path_join "out" "impedance_spectrum.png"),
       Event.renderCall "plot_xrd",
       Event.fileWrite (path_join "out" "xrd_tem.png"),
       Event.renderCall "plot_capacity_vs_cycle",
       Event.fileWrite (path_join "out" "capacity_vs_cycle.png"),
       Event.printReport "out"] }

/-! Helper lemmas. -/

/-- In the supported-format case the loader result is exactly the reader
result. -/
theorem load_data_fst_of_supported (readers : String → String → Except PyErr Dataset)
    (file_path file_format : String) (s : RState) (h : file_format ∈ supported_formats) :
    (load_data readers file_path file_format s).1 = readers file_format file_path := by
  unfold load_data
  rw [if_pos h]
  cases readers file_format file_path <;> rfl

/-- Inversion for a successful load: the format was supported, the reader
returned the Dataset, and the state gained exactly one reader-call event. -/
theorem load_data_ok_inv (readers : String → String → Except PyErr Dataset)
    (file_path file_format : String) (s : RState) (d : Dataset) (s1 : RState)
    (h : load_data readers file_path file_format s = (.ok d, s1)) :
    file_format ∈ supported_formats ∧ readers file_format file_path = .ok d ∧
      s1 = { s with events := s.events ++ [Event.readerCall file_format file_path] } := by
  unfold load_data at h
  by_cases hf : file_format ∈ supported_formats
  · rw [if_pos hf] at h
    cases hr : readers file_format file_path <;> rw [hr] at h <;>
      simp_all
  · rw [if_neg hf] at h
    simp_all

/-- The loader preserves directories and files and only appends quiet
events (reader calls and error logging). -/
theorem load_data_state (readers : String → String → Except PyErr Dataset)
    (file_path file_format : String) (s : RState) :
    ∃ tr, (load_data readers file_path file_format s).2.dirs = s.dirs ∧
      (load_data readers file_path file_format s).2.files = s.files ∧
      (load_data readers file_path file_format s).2.events = s.events ++ tr ∧
      (∀ e ∈ tr, (∀ ch, e ≠ Event.renderCall ch) ∧ ∀ pth, e ≠ Event.fileWrite pth) := by
  unfold load_data
  by_cases hf : file_format ∈ supported_formats
  · rw [if_pos hf]
    cases hr : readers file_format file_path
    · exact ⟨[Event.readerCall file_format file_path, Event.printErrorCall file_path],
        rfl, rfl, by simp, by simp⟩
    · exact ⟨[Event.readerCall file_format file_path], rfl, rfl, by simp, by simp⟩
  · rw [if_neg hf]
    exact ⟨[], rfl, rfl, by simp, by simp⟩

/-- Inversion for a successful voltage render: both columns were present
and exactly one file was written. -/
theorem plot_voltage_curve_ok_inv (d : Dataset) (f : String) (s : RState) (u : Unit)
    (s' : RState) (h : plot_voltage_curve d f s = (.ok u, s')) :
    ∃ xs ys, d.lookup "time" = some xs ∧ d.lookup "voltage" = some ys ∧
      s' = { dirs := s.dirs,
             files := (f, { xs := xs, ys := ys, logx := false }) :: s.files,
             events := s.events ++ [Event.renderCall "plot_voltage_curve", Event.fileWrite f] } := by
  unfold plot_voltage_curve lookupCol at h
  cases hx : d.lookup "time" <;> rw [hx] at h
  · simp_all
  · cases hy : d.lookup "voltage" <;> rw [hy] at h <;> simp_all

/-- Inversion for a failed voltage render: no file is written, the state
only records the renderer invocation. -/
theorem plot_voltage_curve_err_inv (d : Dataset) (f : String) (s : RState) (e : PyErr)
    (s' : RState) (h : plot_voltage_curve d f s = (.error e, s')) :
    s' = { dirs := s.dirs, files := s.files,
           events := s.events ++ [Event.renderCall "plot_voltage_curve"] } := by
  unfold plot_voltage_curve lookupCol at h
  cases hx : d.lookup "time" <;> rw [hx] at h
  · simp_all
  · cases hy : d.lookup "voltage" <;> rw [hy] at h <;> simp_all

/-- Inversion for a successful impedance render: both columns were present
and exactly one file (with logarithmic x axis) was written. -/
theorem plot_impedance_ok_inv (d : Dataset) (f : String) (s : RState) (u : Unit)
    (s' : RState) (h : plot_impedance d f s = (.ok u, s')) :
    ∃ xs ys, d.lookup "frequency" = some xs ∧ d.lookup "impedance" = some ys ∧
      s' = { dirs := s.dirs,
             files := (f, { xs := xs, ys := ys, logx := true }) :: s.files,
             events := s.events ++ [Event.renderCall "plot_impedance", Event.fileWrite f] } := by
  unfold plot_impedance lookupCol at h
  cases hx : d.lookup "frequency" <;> rw [hx] at h
  · simp_all
  · cases hy : d.lookup "impedance" <;> rw [hy] at h <;> simp_all

/-- Inversion for a failed impedance render: no file is written. -/
theorem plot_impedance_err_inv (d : Dataset) (f : String) (s : RState) (e : PyErr)
    (s' : RState) (h : plot_impedance d f s = (.error e, s')) :
    s' = { dirs := s.dirs, files := s.files,
           events := s.events ++ [Event.renderCall "plot_impedance"] } := by
  unfold plot_impedance lookupCol at h
  cases hx : d.lookup "frequency" <;> rw [hx] at h
  · simp_all
  · cases hy : d.lookup "impedance" <;> rw [hy] at h <;> simp_all

/-- Inversion for a successful XRD render. -/
theorem plot_xrd_ok_inv (d : Dataset) (f : String) (s : RState) (u : Unit)
    (s' : RState) (h : plot_xrd d f s = (.ok u, s')) :
    ∃ xs ys, d.lookup "2theta" = some xs ∧ d.lookup "intensity" = some ys ∧
      s' = { dirs := s.dirs,
             files := (f, { xs := xs, ys := ys, logx := false }) :: s.files,
             events := s.events ++ [Event.renderCall "plot_xrd", Event.fileWrite f] } := by
  unfold plot_xrd lookupCol at h
  cases hx : d.lookup "2theta" <;> rw [hx] at h
  · simp_all
  · cases hy : d.lookup "intensity" <;> rw [hy] at h <;> simp_all

/-- Inversion for a failed XRD render: no file is written. -/
theorem plot_xrd_err_inv (d : Dataset) (f : String) (s : RState) (e : PyErr)
    (s' : RState) (h : plot_xrd d f s = (.error e, s')) :
    s' = { dirs := s.dirs, files := s.files,
           events := s.events ++ [Event.renderCall "plot_xrd"] } := by
  unfold plot_xrd lookupCol at h
  cases hx : d.lookup "2theta" <;> rw [hx] at h
  · simp_all
  · cases hy : d.lookup "intensity" <;> rw [hy] at h <;> simp_all

/-- Inversion for a successful capacity render. -/
theorem plot_capacity_vs_cycle_ok_inv (d : Dataset) (f : String) (s : RState) (u : Unit)
    (s' : RState) (h : plot_capacity_vs_cycle d f s = (.ok u, s')) :
    ∃ xs ys, d.lookup "cycle" = some xs ∧ d.lookup "capacity" = some ys ∧
      s' = { dirs := s.dirs,
             files := (f, { xs := xs, ys := ys, logx := false }) :: s.files,
             events := s.events ++ [Event.renderCall "plot_capacity_vs_cycle", Event.fileWrite f] } := by
  unfold plot_capacity_vs_cycle lookupCol at h
  cases hx : d.lookup "cycle" <;> rw [hx] at h
  · simp_all
  · cases hy : d.lookup "capacity" <;> rw [hy] at h <;> simp_all

/-- Inversion for a failed capacity render: no file is written. -/
theorem plot_capacity_vs_cycle_err_inv (d : Dataset) (f : String) (s : RState) (e : PyErr)
    (s' : RState) (h : plot_capacity_vs_cycle d f s = (.error e, s')) :
    s' = { dirs := s.dirs, files := s.files,
           events := s.events ++ [Event.renderCall "plot_capacity_vs_cycle"] } := by
  unfold plot_capacity_vs_cycle lookupCol at h
  cases hx : d.lookup "cycle" <;> rw [hx] at h
  · simp_all
  · cases hy : d.lookup "capacity" <;> rw [hy] at h <;> simp_all

/-- The output directory is in the directory list after the guarded
creation step. -/
theorem ensure_output_dir_mem (dir : String) (s : RState) :
    dir ∈ (ensure_output_dir dir s).dirs := by
  unfold ensure_output_dir
  by_cases h : dir ∈ s.dirs
  · rw [if_pos h]; exact h
  · rw [if_neg h]; exact List.mem_cons_self _ _

/-- The guarded creation step never touches files. -/
theorem ensure_output_dir_files (dir : String) (s : RState) :
    (ensure_output_dir dir s).files = s.files := by
  unfold ensure_output_dir
  by_cases h : dir ∈ s.dirs
  · rw [if_pos h]
  · rw [if_neg h]

/-- A pre-existing output directory makes the guarded creation step a
no-op (in particular it is not an error; the step cannot raise at all). -/
theorem ensure_output_dir_of_mem (dir : String) (s : RState) (h : dir ∈ s.dirs) :
    ensure_output_dir dir s = s := by
  unfold ensure_output_dir
  rw [if_pos h]

/-- An absent output directory is created, and the creation event is the
first event of the run. -/
theorem ensure_output_dir_of_not_mem (dir : String) (s : RState) (h : dir ∉ s.dirs) :
    ensure_output_dir dir s =
      { s with dirs := dir :: s.dirs, events := s.events ++ [Event.mkdirCall dir] } := by
  unfold ensure_output_dir
  rw [if_neg h]

/-- A trace with no renderer invocation at all trivially satisfies the
ordering property. -/
theorem noRenderBefore_of_no_render (tr : List Event)
    (h : ∀ ch, Event.renderCall ch ∉ tr) : noRenderBefore tr := by
  intro pre chart post htr
  exact absurd (htr ▸ List.mem_append_right pre (List.mem_cons_self _ _)) (h chart)

/-- If a render-free initial segment contains both smoothing-completion
events, any extension satisfies the ordering property. -/
theorem noRenderBefore_append (A B : List Event)
    (hA : ∀ ch, Event.renderCall ch ∉ A)
    (hv : Event.smoothDone "voltage" ∈ A) (hi : Event.smoothDone "impedance" ∈ A) :
    noRenderBefore (A ++ B) := by
  intro pre chart post htr
  rcases List.append_eq_append_iff.mp htr with ⟨a2, ha1, _⟩ | ⟨c2, hc1, hc2⟩
  · subst ha1
    exact ⟨List.mem_append_left _ hv, List.mem_append_left _ hi⟩
  · cases c2 with
    | nil =>
      rw [List.append_nil] at hc1
      subst hc1
      exact ⟨hv, hi⟩
    | cons x c3 =>
      exfalso
      have hx : x = Event.renderCall chart := by
        simp only [List.cons_append] at hc2
        exact (List.cons_eq_cons.mp hc2).1.symm
      apply hA chart
      rw [hc1, hx]
      exact List.mem_append_right _ (List.mem_cons_self _ _)

/-- Prepending render-free events preserves the ordering property. -/
theorem noRenderBefore_prepend (A tr : List Event)
    (hA : ∀ ch, Event.renderCall ch ∉ A) (h : noRenderBefore tr) :
    noRenderBefore (A ++ tr) := by
  intro pre chart post htr
  rcases List.append_eq_append_iff.mp htr with ⟨a2, ha1, ha2⟩ | ⟨c2, hc1, hc2⟩
  · subst ha1
    have := h a2 chart post ha2
    exact ⟨List.mem_append_right _ this.1, List.mem_append_right _ this.2⟩
  · cases c2 with
    | nil =>
      rw [List.append_nil] at hc1
      subst hc1
      simp only [List.nil_append] at hc2
      have := h [] chart post hc2.symm
      simp at this
    | cons x c3 =>
      exfalso
      have hx : x = Event.renderCall chart := by
        simp only [List.cons_append] at hc2
        exact (List.cons_eq_cons.mp hc2).1.symm
      apply hA chart
      rw [hc1, hx]
      exact List.mem_append_right _ (List.mem_cons_self _ _)

/-- Characterisation of the chart block: it preserves directories, only
appends events, and on success every column pair was present and the four
chart files hold exactly the raw columns of the Dataset. -/
theorem render_all_master (d : Dataset) (od : String) (s : RState) :
    ∃ tr : List Event,
      (render_all d od s).2.dirs = s.dirs ∧
      (render_all d od s).2.events = s.events ++ tr ∧
      ∀ r : Unit, (render_all d od s).1 = .ok r →
        ∃ xs ys fr im th it cy cp,
          d.lookup "time" = some xs ∧ d.lookup "voltage" = some ys ∧
          d.lookup "frequency" = some fr ∧ d.lookup "impedance" = some im ∧
          d.lookup "2theta" = some th ∧ d.lookup "intensity" = some it ∧
          d.lookup "cycle" = some cy ∧ d.lookup "capacity" = some cp ∧
          (render_all d od s).2.files =
            (path_join od "capacity_vs_cycle.png", ⟨cy, cp, false⟩) ::
            (path_join od "xrd_tem.png", ⟨th, it, false⟩) ::
            (path_join od "impedance_spectrum.png", ⟨fr, im, true⟩) ::
            (path_join od "charge_discharge_curve.png", ⟨xs, ys, false⟩) :: s.files := by
  rcases h1 : plot_voltage_curve d (path_join od "charge_discharge_curve.png") s with ⟨e1 | u1, s4⟩
  · have hG : render_all d od s = (.error e1, s4) := by
      unfold render_all; rw [h1]
    have hs4 := plot_voltage_curve_err_inv _ _ _ _ _ h1
    subst hs4
    refine ⟨[Event.renderCall "plot_voltage_curve"], by rw [hG], by rw [hG], ?_⟩
    intro r hr; rw [hG] at hr; simp at hr
  · obtain ⟨xs, ys, hts, hvs, hs4⟩ := plot_voltage_curve_ok_inv _ _ _ _ _ h1
    rcases h2 : plot_impedance d (path_join od "impedance_spectrum.png") s4 with ⟨e2 | u2, s5⟩
    · have hG : render_all d od s = (.error e2, s5) := by
        unfold render_all; rw [h1]; dsimp only; rw [h2]
      have hs5 := plot_impedance_err_inv _ _ _ _ _ h2
      subst hs5; subst hs4
      refine ⟨[Event.renderCall "plot_voltage_curve", Event.fileWrite (path_join od "charge_discharge_curve.png"), Event.renderCall "plot_impedance"], by rw [hG], ?_, ?_⟩
      · rw [hG]; simp
      · intro r hr; rw [hG] at hr; simp at hr
    · obtain ⟨fr, im, hfs, his, hs5⟩ := plot_impedance_ok_inv _ _ _ _ _ h2
      rcases h3 : plot_xrd d (path_join od "xrd_tem.png") s5 with ⟨e3 | u3, s6⟩
      · have hG : render_all d od s = (.error e3, s6) := by
          unfold render_all; rw [h1]; dsimp only; rw [h2]; dsimp only; rw [h3]
        have hs6 := plot_xrd_err_inv _ _ _ _ _ h3
        subst hs6; subst hs5; subst hs4
        refine ⟨[Event.renderCall "plot_voltage_curve", Event.fileWrite (path_join od "charge_discharge_curve.png"), Event.renderCall "plot_impedance", Event.fileWrite (path_join od "impedance_spectrum.png"), Event.renderCall "plot_xrd"], by rw [hG], ?_, ?_⟩
        · rw [hG]; simp
        · intro r hr; rw [hG] at hr; simp at hr
      · obtain ⟨th, it, hths, hits, hs6⟩ := plot_xrd_ok_inv _ _ _ _ _ h3
        rcases h4 : plot_capacity_vs_cycle d (path_join od "capacity_vs_cycle.png") s6 with ⟨e4 | u4, s7⟩
        · have hG : render_all d od s = (.error e4, s7) := by
            unfold render_all; rw [h1]; dsimp only; rw [h2]; dsimp only; rw [h3]; dsimp only; rw [h4]
          have hs7 := plot_capacity_vs_cycle_err_inv _ _ _ _ _ h4
          subst hs7; subst hs6; subst hs5; subst hs4
          refine ⟨[Event.renderCall "plot_voltage_curve", Event.fileWrite (path_join od "charge_discharge_curve.png"), Event.renderCall "plot_impedance", Event.fileWrite (path_join od "impedance_spectrum.png"), Event.renderCall "plot_xrd", Event.fileWrite (path_join od "xrd_tem.png"), Event.renderCall "plot_capacity_vs_cycle"], by rw [hG], ?_, ?_⟩
          · rw [hG]; simp
          · intro r hr; rw [hG] at hr; simp at hr
        · obtain ⟨cy, cp, hcys, hcps, hs7⟩ := plot_capacity_vs_cycle_ok_inv _ _ _ _ _ h4
          have hG : render_all d od s =
              (.ok (), { s7 with events := s7.events ++ [Event.printReport od] }) := by
            unfold render_all; rw [h1]; dsimp only; rw [h2]; dsimp only; rw [h3]; dsimp only; rw [h4]
          subst hs7; subst hs6; subst hs5; subst hs4
          refine ⟨[Event.renderCall "plot_voltage_curve", Event.fileWrite (path_join od "charge_discharge_curve.png"), Event.renderCall "plot_impedance", Event.fileWrite (path_join od "impedance_spectrum.png"), Event.renderCall "plot_xrd", Event.fileWrite (path_join od "xrd_tem.png"), Event.renderCall "plot_capacity_vs_cycle", Event.fileWrite (path_join od "capacity_vs_cycle.png"), Event.printReport od], by rw [hG], ?_, ?_⟩
          · rw [hG]; simp
          · intro r _
            exact ⟨xs, ys, fr, im, th, it, cy, cp, hts, hvs, hfs, his, hths, hits, hcys, hcps,
              by rw [hG]⟩

/-- Characterisation of a full orchestrator run: directories are exactly
those after the initial guarded creation; events are only appended, and in
the appended trace every renderer invocation is preceded by both
smoothing completions; if the Dataset loads but lacks the voltage or the
impedance column the run errors with no file written; and a successful run
implies all eight columns were present and the four chart files hold the
raw loaded columns. -/
theorem generate_report_master (readers : String → String → Except PyErr Dataset)
    (dataPath od fmt m : String) (w p : ℕ) (s : RState) :
    ∃ tr : List Event,
      (generate_report readers dataPath od fmt m w p s).2.dirs =
        (ensure_output_dir od s).dirs ∧
      (generate_report readers dataPath od fmt m w p s).2.events =
        (ensure_output_dir od s).events ++ tr ∧
      noRenderBefore tr ∧
      (∀ d : Dataset, fmt ∈ supported_formats → readers fmt dataPath = .ok d →
        (d.lookup "voltage" = none ∨ d.lookup "impedance" = none) →
        (∃ e, (generate_report readers dataPath od fmt m w p s).1 = .error e) ∧
        (generate_report readers dataPath od fmt m w p s).2.files = s.files ∧
        (∀ pth, Event.fileWrite pth ∉ tr)) ∧
      (∀ r : Unit, (generate_report readers dataPath od fmt m w p s).1 = .ok r →
        ∃ d xs ys fr im th it cy cp,
          fmt ∈ supported_formats ∧ readers fmt dataPath = .ok d ∧
          d.lookup "time" = some xs ∧ d.lookup "voltage" = some ys ∧
          d.lookup "frequency" = some fr ∧ d.lookup "impedance" = some im ∧
          d.lookup "2theta" = some th ∧ d.lookup "intensity" = some it ∧
          d.lookup "cycle" = some cy ∧ d.lookup "capacity" = some cp ∧
          (generate_report readers dataPath od fmt m w p s).2.files =
            (path_join od "capacity_vs_cycle.png", ⟨cy, cp, false⟩) ::
            (path_join od "xrd_tem.png", ⟨th, it, false⟩) ::
            (path_join od "impedance_spectrum.png", ⟨fr, im, true⟩) ::
            (path_join od "charge_discharge_curve.png", ⟨xs, ys, false⟩) :: s.files) := by
  rcases hload : load_data readers dataPath fmt (ensure_output_dir od s) with ⟨e1 | d, s1⟩
  · -- the loader failed (unsupported format or reader error)
    have hG : generate_report readers dataPath od fmt m w p s = (.error e1, s1) := by
      simp only [generate_report]; rw [hload]
    obtain ⟨tr0, hd0, hf0, he0, hq0⟩ := load_data_state readers dataPath fmt (ensure_output_dir od s)
    rw [hload] at hd0 hf0 he0
    refine ⟨tr0, by rw [hG]; exact hd0, by rw [hG]; exact he0, ?_, ?_, ?_⟩
    · exact noRenderBefore_of_no_render tr0 fun ch hmem => (hq0 _ hmem).1 ch rfl
    · intro d hfmt hrd _
      have h := load_data_fst_of_supported readers dataPath fmt (ensure_output_dir od s) hfmt
      rw [hload, hrd] at h
      simp at h
    · intro r hr; rw [hG] at hr; simp at hr
  · -- the loader returned a Dataset d
    obtain ⟨hfmt1, hrd1, hs1⟩ := load_data_ok_inv readers dataPath fmt (ensure_output_dir od s) d s1 hload
    rcases hv : d.lookup "voltage" with _ | v
    · -- voltage column missing: KeyError at the first smoothing step
      have hG : generate_report readers dataPath od fmt m w p s =
          (.error (.keyError "voltage"), s1) := by
        simp only [generate_report]; rw [hload]; simp only [lookupCol, hv]
      subst hs1
      refine ⟨[Event.readerCall fmt dataPath], by rw [hG], by rw [hG], ?_, ?_, ?_⟩
      · exact noRenderBefore_of_no_render _ (by simp)
      · intro d' _ _ _
        refine ⟨⟨.keyError "voltage", by rw [hG]⟩, ?_, by simp⟩
        rw [hG]
        exact ensure_output_dir_files od s
      · intro r hr; rw [hG] at hr; simp at hr
    · rcases hsv : smooth_data v m w p with e2 | sv
      · -- smoothing the voltage column failed
        have hG : generate_report readers dataPath od fmt m w p s = (.error e2, s1) := by
          simp only [generate_report]; rw [hload]; simp only [lookupCol, hv]; rw [hsv]
        subst hs1
        refine ⟨[Event.readerCall fmt dataPath], by rw [hG], by rw [hG], ?_, ?_, ?_⟩
        · exact noRenderBefore_of_no_render _ (by simp)
        · intro d' _ _ _
          refine ⟨⟨e2, by rw [hG]⟩, ?_, by simp⟩
          rw [hG]
          exact ensure_output_dir_files od s
        · intro r hr; rw [hG] at hr; simp at hr
      · rcases hi : d.lookup "impedance" with _ | iv
        · -- impedance column missing: KeyError at the second smoothing step
          have hG : generate_report readers dataPath od fmt m w p s =
              (.error (.keyError "impedance"),
                { s1 with events := s1.events ++ [Event.smoothDone "voltage"] }) := by
            simp only [generate_report]; rw [hload]; simp only [lookupCol, hv]; rw [hsv]
            simp only [lookupCol, hi]
          subst hs1
          refine ⟨[Event.readerCall fmt dataPath, Event.smoothDone "voltage"],
            by rw [hG], by rw [hG]; simp, ?_, ?_, ?_⟩
          · exact noRenderBefore_of_no_render _ (by simp)
          · intro d' _ _ _
            refine ⟨⟨.keyError "impedance", by rw [hG]⟩, ?_, by simp⟩
            rw [hG]
            exact ensure_output_dir_files od s
          · intro r hr; rw [hG] at hr; simp at hr
        · rcases hsi : smooth_data iv m w p with e3 | si
          · -- smoothing the impedance column failed
            have hG : generate_report readers dataPath od fmt m w p s =
                (.error e3,
                  { s1 with events := s1.events ++ [Event.smoothDone "voltage"] }) := by
              simp only [generate_report]; rw [hload]; simp only [lookupCol, hv]; rw [hsv]
              simp only [lookupCol, hi]; rw [hsi]
            subst hs1
            refine ⟨[Event.readerCall fmt dataPath, Event.smoothDone "voltage"],
              by rw [hG], by rw [hG]; simp, ?_, ?_, ?_⟩
            · exact noRenderBefore_of_no_render _ (by simp)
            · intro d' _ _ _
              refine ⟨⟨e3, by rw [hG]⟩, ?_, by simp⟩
              rw [hG]
              exact ensure_output_dir_files od s
            · intro r hr; rw [hG] at hr; simp at hr
          · -- both smoothing calls succeeded: the run continues with the charts
            have hG : generate_report readers dataPath od fmt m w p s =
                render_all d od
                  { s1 with events :=
                      (s1.events ++ [Event.smoothDone "voltage"]) ++ [Event.smoothDone "impedance"] } := by
              simp only [generate_report]; rw [hload]; simp only [lookupCol, hv]; rw [hsv]
              simp only [lookupCol, hi]; rw [hsi]
            obtain ⟨trR, hRd, hRe, hRok⟩ := render_all_master d od
              { s1 with events :=
                  (s1.events ++ [Event.smoothDone "voltage"]) ++ [Event.smoothDone "impedance"] }
            subst hs1
            refine ⟨[Event.readerCall fmt dataPath, Event.smoothDone "voltage",
                Event.smoothDone "impedance"] ++ trR, ?_, ?_, ?_, ?_, ?_⟩
            · rw [hG, hRd]
            · rw [hG, hRe]; simp
            · refine noRenderBefore_append _ _ (by simp) (by simp) (by simp)
            · intro d' _ hrd hdisj
              rw [hrd1] at hrd
              cases hrd
              rcases hdisj with hnone | hnone
              · rw [hv] at hnone; cases hnone
              · rw [hi] at hnone; cases hnone
            · intro r hr
              rw [hG] at hr
              obtain ⟨xs, ys, fr, im, th, it, cy, cp, hrest⟩ := hRok r hr
              refine ⟨d, xs, ys, fr, im, th, it, cy, cp, hfmt1, hrd1,
                hrest.1, hrest.2.1, hrest.2.2.1, hrest.2.2.2.1, hrest.2.2.2.2.1,
                hrest.2.2.2.2.2.1, hrest.2.2.2.2.2.2.1, hrest.2.2.2.2.2.2.2.1, ?_⟩
              rw [hG, hrest.2.2.2.2.2.2.2.2]
              simp [ensure_output_dir_files]

/-! Claim theorems. -/

/-- C1: for every successful run of the report orchestrator, the smoothed
voltage and impedance series it computes are never written back into the
Dataset (the Dataset is immutable in the embedding and the renderers look
their columns up in the Dataset as loaded) and never passed to any
renderer: the four chart files written by the run contain exactly the
raw, unsmoothed columns of the loaded Dataset. -/
theorem C1_renderers_receive_raw_columns
    (readers : String → String → Except PyErr Dataset)
    (dataPath od fmt m : String) (w p : ℕ) (s : RState) (r : Unit) (s' : RState)
    (h : generate_report readers dataPath od fmt m w p s = (.ok r, s')) :
    ∃ d xs ys fr im th it cy cp,
      readers fmt dataPath = .ok d ∧
      d.lookup "time" = some xs ∧ d.lookup "voltage" = some ys ∧
      d.lookup "frequency" = some fr ∧ d.lookup "impedance" = some im ∧
      d.lookup "2theta" = some th ∧ d.lookup "intensity" = some it ∧
      d.lookup "cycle" = some cy ∧ d.lookup "capacity" = some cp ∧
      s'.files =
        (path_join od "capacity_vs_cycle.png", { xs := cy, ys := cp, logx := false }) ::
        (path_join od "xrd_tem.png", { xs := th, ys := it, logx := false }) ::
        (path_join od "impedance_spectrum.png", { xs := fr, ys := im, logx := true }) ::
        (path_join od "charge_discharge_curve.png", { xs := xs, ys := ys, logx := false }) ::
        s.files := by
  obtain ⟨tr, _, _, _, _, hok⟩ := generate_report_master readers dataPath od fmt m w p s
  have h1 : (generate_report readers dataPath od fmt m w p s).1 = .ok r := by rw [h]
  obtain ⟨d, xs, ys, fr, im, th, it, cy, cp, _, hrd, hts, hvs, hfs, his, hths, hits, hcys,
    hcps, hfiles⟩ := hok r h1
  rw [h] at hfiles
  exact ⟨d, xs, ys, fr, im, th, it, cy, cp, hrd, hts, hvs, hfs, his, hths, hits, hcys,
    hcps, hfiles⟩

/-- Witness for C1: a complete concrete run with all eight columns present
succeeds and writes exactly the four raw column pairs. -/
theorem C1_renderers_receive_raw_columns_witness :
    generate_report demoReaders "data.csv" "out" "csv" "zscore" 11 3 demoState =
      (.ok (), demoFinal) ∧
    ∃ d xs ys fr im th it cy cp,
      demoReaders "csv" "data.csv" = .ok d ∧
      d.lookup "time" = some xs ∧ d.lookup "voltage" = some ys ∧
      d.lookup "frequency" = some fr ∧ d.lookup "impedance" = some im ∧
      d.lookup "2theta" = some th ∧ d.lookup "intensity" = some it ∧
      d.lookup "cycle" = some cy ∧ d.lookup "capacity" = some cp ∧
      demoFinal.files =
        (path_join "out" "capacity_vs_cycle.png", { xs := cy, ys := cp, logx := false }) ::
        (path_join "out" "xrd_tem.png", { xs := th, ys := it, logx := false }) ::
        (path_join "out" "impedance_spectrum.png", { xs := fr, ys := im, logx := true }) ::
        (path_join "out" "charge_discharge_curve.png", { xs := xs, ys := ys, logx := false }) ::
        demoState.files :=
  ⟨rfl, C1_renderers_receive_raw_columns demoReaders "data.csv" "out" "csv" "zscore" 11 3
    demoState () demoFinal rfl⟩

/-- C5: for every format tag outside csv, excel and json, `load_data`
fails with the unsupported-format error and performs no partial read: the
state is returned unchanged, so in particular no reader-call event is
recorded and no reader is consulted. -/
theorem C5_load_unsupported_format (readers : String → String → Except PyErr Dataset)
    (file_path file_format : String) (s : RState)
    (h : file_format ∉ supported_formats) :
    load_data readers file_path file_format s =
      (.error (.unsupportedFormat file_format), s) := by
  unfold load_data
  rw [if_neg h]

/-- Witness for C5 at the concrete tag xml. -/
theorem C5_load_unsupported_format_witness :
    ("xml" ∉ supported_formats) ∧
    load_data demoReaders "data.xml" "xml" demoState =
      (.error (.unsupportedFormat "xml"), demoState) :=
  ⟨by decide, C5_load_unsupported_format demoReaders "data.xml" "xml" demoState (by decide)⟩

/-- C6: for every input, the peak finder fails with a NameError, because
its body references the global `find_peaks`, which is neither imported nor
defined in the module; it never returns peak positions and heights. -/
theorem C6_find_peaks_always_name_error (data : List ℝ) (threshold : ℝ) (min_distance : ℕ) :
    find_peaks_in_data data threshold min_distance = .error (.nameError "find_peaks") := rfl

/-- C9: for every method tag outside savgol, moving_average and zscore,
smoothing fails with the unsupported-method error, and each of the three
supported tags dispatches exactly to the corresponding transform. -/
theorem C9_smooth_data_dispatch :
    (∀ (data : List ℝ) (method : String) (w p : ℕ),
      method ∉ ["savgol", "moving_average", "zscore"] →
      smooth_data data method w p = .error (.unsupportedMethod method)) ∧
    (∀ (data : List ℝ) (w p : ℕ),
      smooth_data data "savgol" w p =
        (match savgol_filter data w p with
         | .ok r => .ok (r.map some)
         | .error e => .error e) ∧
      smooth_data data "moving_average" w p = .ok (rolling_mean data w) ∧
      smooth_data data "zscore" w p = .ok ((zscore data).map some)) := by
  constructor
  · intro data method w p h
    simp only [List.mem_cons, List.not_mem_nil, or_false, not_or] at h
    simp [smooth_data, h.1, h.2.1, h.2.2]
  · intro data w p
    refine ⟨?_, ?_, ?_⟩ <;> simp [smooth_data]

/-- Witness for C9 at the concrete unsupported tag median. -/
theorem C9_smooth_data_dispatch_witness :
    ("median" ∉ ["savgol", "moving_average", "zscore"]) ∧
    smooth_data [] "median" 3 1 = .error (.unsupportedMethod "median") :=
  ⟨by decide, C9_smooth_data_dispatch.1 [] "median" 3 1 (by decide)⟩

/-- C7: every run of the report orchestrator ends with the output
directory present; when the directory did not exist beforehand its
creation is the first event of the run, hence it precedes every file
write; and a pre-existing output directory makes the guarded creation
step a no-op (directory creation is idempotent and never an error). -/
theorem C7_output_dir_creation :
    (∀ (readers : String → String → Except PyErr Dataset)
       (dataPath od fmt m : String) (w p : ℕ) (s : RState),
       od ∈ (generate_report readers dataPath od fmt m w p s).2.dirs) ∧
    (∀ (readers : String → String → Except PyErr Dataset)
       (dataPath od fmt m : String) (w p : ℕ) (s : RState), od ∉ s.dirs →
       ∃ tr, (generate_report readers dataPath od fmt m w p s).2.events =
         s.events ++ Event.mkdirCall od :: tr) ∧
    (∀ (od : String) (s : RState), od ∈ s.dirs → ensure_output_dir od s = s) := by
  refine ⟨?_, ?_, ?_⟩
  · intro readers dataPath od fmt m w p s
    obtain ⟨tr, hd, _⟩ := generate_report_master readers dataPath od fmt m w p s
    rw [hd]
    exact ensure_output_dir_mem od s
  · intro readers dataPath od fmt m w p s h
    obtain ⟨tr, _, he, _⟩ := generate_report_master readers dataPath od fmt m w p s
    refine ⟨tr, ?_⟩
    rw [he, ensure_output_dir_of_not_mem od s h]
    simp
  · exact ensure_output_dir_of_mem

/-- Witness for C7 on concrete runs: the directory out is created from a
fresh state, the creation event leads the trace, and a state already
containing out is untouched by the guarded creation step. -/
theorem C7_output_dir_creation_witness :
    ("out" ∈ (generate_report demoReaders "data.csv" "out" "csv" "zscore" 11 3 demoState).2.dirs) ∧
    ("out" ∉ demoState.dirs ∧
      ∃ tr, (generate_report demoReaders "data.csv" "out" "csv" "zscore" 11 3 demoState).2.events =
        demoState.events ++ Event.mkdirCall "out" :: tr) ∧
    ("out" ∈ (⟨["out"], [], []⟩ : RState).dirs ∧
      ensure_output_dir "out" ⟨["out"], [], []⟩ = (⟨["out"], [], []⟩ : RState)) :=
  ⟨C7_output_dir_creation.1 demoReaders "data.csv" "out" "csv" "zscore" 11 3 demoState,
   ⟨by simp [demoState],
    C7_output_dir_creation.2.1 demoReaders "data.csv" "out" "csv" "zscore" 11 3 demoState
      (by simp [demoState])⟩,
   ⟨by simp, C7_output_dir_creation.2.2 "out" ⟨["out"], [], []⟩ (by simp)⟩⟩

/-- C10: in every run of the report orchestrator started with an empty
trace, no renderer is invoked before both smoothing calls have completed;
and when the loaded Dataset lacks the voltage or the impedance column the
run fails at the smoothing stage, the file table is unchanged and no file
write occurs. -/
theorem C10_smooth_before_render :
    (∀ (readers : String → String → Except PyErr Dataset)
       (dataPath od fmt m : String) (w p : ℕ) (s : RState), s.events = [] →
       noRenderBefore (generate_report readers dataPath od fmt m w p s).2.events) ∧
    (∀ (readers : String → String → Except PyErr Dataset)
       (dataPath od fmt m : String) (w p : ℕ) (s : RState) (d : Dataset),
       fmt ∈ supported_formats → readers fmt dataPath = .ok d →
       (d.lookup "voltage" = none ∨ d.lookup "impedance" = none) →
       (∃ e, (generate_report readers dataPath od fmt m w p s).1 = .error e) ∧
       (generate_report readers dataPath od fmt m w p s).2.files = s.files ∧
       (∀ pth, Event.fileWrite pth ∈ (generate_report readers dataPath od fmt m w p s).2.events →
         Event.fileWrite pth ∈ s.events)) := by
  constructor
  · intro readers dataPath od fmt m w p s hs
    obtain ⟨tr, _, he, hnr, _⟩ := generate_report_master readers dataPath od fmt m w p s
    rw [he]
    by_cases hmem : od ∈ s.dirs
    · rw [ensure_output_dir_of_mem od s hmem, hs]
      exact noRenderBefore_prepend [] tr (by simp) hnr
    · rw [ensure_output_dir_of_not_mem od s hmem]
      simp only [hs, List.nil_append]
      exact noRenderBefore_prepend [Event.mkdirCall od] tr (by simp) hnr
  · intro readers dataPath od fmt m w p s d hfmt hrd hdisj
    obtain ⟨tr, _, he, _, hmiss, _⟩ := generate_report_master readers dataPath od fmt m w p s
    obtain ⟨herr, hfiles, hnw⟩ := hmiss d hfmt hrd hdisj
    refine ⟨herr, hfiles, ?_⟩
    intro pth hmem
    rw [he] at hmem
    rcases List.mem_append.mp hmem with hmem1 | hmem1
    · by_cases hdir : od ∈ s.dirs
      · rwa [ensure_output_dir_of_mem od s hdir] at hmem1
      · rw [ensure_output_dir_of_not_mem od s hdir] at hmem1
        rcases List.mem_append.mp hmem1 with h2 | h2
        · exact h2
        · simp at h2
    · exact absurd hmem1 (hnw pth)

/-- Witness for C10: the ordering property on the complete successful demo
run, and the failing behaviour on a Dataset without a voltage column. -/
theorem C10_smooth_before_render_witness :
    (demoState.events = [] ∧
      noRenderBefore (generate_report demoReaders "data.csv" "out" "csv" "zscore" 11 3
        demoState).2.events) ∧
    (("csv" ∈ supported_formats) ∧
      ((fun _ _ => .ok [("x", [1])] : String → String → Except PyErr Dataset) "csv" "d.csv" =
        .ok [("x", [1])]) ∧
      (([("x", [1])] : Dataset).lookup "voltage" = none ∨
        ([("x", [1])] : Dataset).lookup "impedance" = none) ∧
      (∃ e, (generate_report (fun _ _ => .ok [("x", [1])]) "d.csv" "out" "csv" "zscore" 11 3
        demoState).1 = .error e) ∧
      (generate_report (fun _ _ => .ok [("x", [1])]) "d.csv" "out" "csv" "zscore" 11 3
        demoState).2.files = demoState.files ∧
      (∀ pth, Event.fileWrite pth ∈ (generate_report (fun _ _ => .ok [("x", [1])]) "d.csv" "out"
          "csv" "zscore" 11 3 demoState).2.events →
        Event.fileWrite pth ∈ demoState.events)) :=
  ⟨⟨rfl, C10_smooth_before_render.1 demoReaders "data.csv" "out" "csv" "zscore" 11 3
      demoState rfl⟩,
   ⟨by decide, rfl, Or.inl rfl,
    C10_smooth_before_render.2 (fun _ _ => .ok [("x", [1])]) "d.csv" "out" "csv" "zscore" 11 3
      demoState [("x", [1])] (by decide) rfl (Or.inl rfl)⟩⟩

/-- C8: the impedance renderer on a Dataset missing the impedance column
fails with a KeyError and writes no file; the voltage renderer invoked
independently on a Dataset holding time and voltage columns succeeds and
writes exactly its own file; and no renderer result depends on any prior
state, in particular not on another renderer having run. -/
theorem C8_renderer_isolation :
    (∀ (d : Dataset) (file : String) (s : RState), d.lookup "impedance" = none →
      (∃ k, (plot_impedance d file s).1 = .error (.keyError k)) ∧
      (plot_impedance d file s).2.files = s.files) ∧
    (∀ (d : Dataset) (file : String) (s : RState) (xs ys : List ℝ),
      d.lookup "time" = some xs → d.lookup "voltage" = some ys →
      plot_voltage_curve d file s =
        (.ok (), { dirs := s.dirs,
                   files := (file, { xs := xs, ys := ys, logx := false }) :: s.files,
                   events := s.events ++
                     [Event.renderCall "plot_voltage_curve", Event.fileWrite file] })) ∧
    (∀ (d : Dataset) (file : String) (s t : RState),
      (plot_voltage_curve d file s).1 = (plot_voltage_curve d file t).1 ∧
      (plot_impedance d file s).1 = (plot_impedance d file t).1 ∧
      (plot_xrd d file s).1 = (plot_xrd d file t).1 ∧
      (plot_capacity_vs_cycle d file s).1 = (plot_capacity_vs_cycle d file t).1) := by
  refine ⟨?_, ?_, ?_⟩
  · intro d file s h
    cases hf : d.lookup "frequency"
    · exact ⟨⟨"frequency", by simp [plot_impedance, lookupCol, hf]⟩,
        by simp [plot_impedance, lookupCol, hf]⟩
    · exact ⟨⟨"impedance", by simp [plot_impedance, lookupCol, hf, h]⟩,
        by simp [plot_impedance, lookupCol, hf, h]⟩
  · intro d file s xs ys h1 h2
    simp [plot_voltage_curve, lookupCol, h1, h2]
  · intro d file s t
    refine ⟨?_, ?_, ?_, ?_⟩
    · cases h1 : d.lookup "time" <;> cases h2 : d.lookup "voltage" <;>
        simp [plot_voltage_curve, lookupCol, h1, h2]
    · cases h1 : d.lookup "frequency" <;> cases h2 : d.lookup "impedance" <;>
        simp [plot_impedance, lookupCol, h1, h2]
    · cases h1 : d.lookup "2theta" <;> cases h2 : d.lookup "intensity" <;>
        simp [plot_xrd, lookupCol, h1, h2]
    · cases h1 : d.lookup "cycle" <;> cases h2 : d.lookup "capacity" <;>
        simp [plot_capacity_vs_cycle, lookupCol, h1, h2]

/-- Witness for C8 on concrete Datasets: the empty Dataset for the failing
impedance renderer, a two-column Dataset for the succeeding voltage
renderer, and two different states for the independence conjunct. -/
theorem C8_renderer_isolation_witness :
    (([] : Dataset).lookup "impedance" = none ∧
      (∃ k, (plot_impedance [] "imp.png" demoState).1 = .error (.keyError k)) ∧
      (plot_impedance [] "imp.png" demoState).2.files = demoState.files) ∧
    (([("time", [0]), ("voltage", [1])] : Dataset).lookup "time" = some [0] ∧
      ([("time", [0]), ("voltage", [1])] : Dataset).lookup "voltage" = some [1] ∧
      plot_voltage_curve [("time", [0]), ("voltage", [1])] "v.png" demoState =
        (.ok (), { dirs := demoState.dirs,
                   files := ("v.png", { xs := [0], ys := [1], logx := false }) :: demoState.files,
                   events := demoState.events ++
                     [Event.renderCall "plot_voltage_curve", Event.fileWrite "v.png"] })) ∧
    (plot_voltage_curve [] "v.png" demoState).1 =
      (plot_voltage_curve [] "v.png" demoFinal).1 :=
  ⟨⟨rfl, C8_renderer_isolation.1 [] "imp.png" demoState rfl⟩,
   ⟨rfl, rfl, C8_renderer_isolation.2.1 [("time", [0]), ("voltage", [1])] "v.png" demoState
      [0] [1] rfl rfl⟩,
   (C8_renderer_isolation.2.2 [] "v.png" demoState demoFinal).1⟩

/-- C2: for every input series and every positive window size w, smoothing
with the moving_average method returns a series of the same length as the
input whose first (w - 1) positions are missing and whose position i, for
i at least w - 1, holds the arithmetic mean of the trailing window of w
samples ending at i. -/
theorem C2_moving_average_spec (ys : List ℝ) (w p : ℕ) (hw : 1 ≤ w) :
    ∃ out, smooth_data ys "moving_average" w p = .ok out ∧
      out.length = ys.length ∧
      (∀ i, i < ys.length → i + 1 < w → out[i]? = some none) ∧
      (∀ i, i < ys.length → w ≤ i + 1 →
        out[i]? = some (some ((((ys.drop (i + 1 - w)).take w).sum) / w))) := by
  refine ⟨rolling_mean ys w, by simp [smooth_data], by simp [rolling_mean], ?_, ?_⟩
  · intro i hi hlt
    simp [rolling_mean, List.getElem?_range, hi, hlt]
  · intro i hi hge
    have h1 : ¬ i + 1 < w := by omega
    have h2 : ¬ w = 0 := by omega
    simp [rolling_mean, List.getElem?_range, hi, h1, h2]

/-- Witness for C2 on the concrete series [1, 2, 3] with window 2. -/
theorem C2_moving_average_spec_witness :
    (1 : ℕ) ≤ 2 ∧
    ∃ out, smooth_data [1, 2, 3] "moving_average" 2 3 = .ok out ∧
      out.length = ([1, 2, 3] : List ℝ).length ∧
      (∀ i, i < ([1, 2, 3] : List ℝ).length → i + 1 < 2 → out[i]? = some none) ∧
      (∀ i, i < ([1, 2, 3] : List ℝ).length → 2 ≤ i + 1 →
        out[i]? = some (some ((((([1, 2, 3] : List ℝ).drop (i + 1 - 2)).take 2).sum) / 2))) :=
  ⟨by norm_num, C2_moving_average_spec [1, 2, 3] 2 3 (by norm_num)⟩

/-- Sum of a list after pointwise division by a constant. -/
theorem list_sum_map_div (l : List ℝ) (f : ℝ → ℝ) (c : ℝ) :
    (l.map fun x => f x / c).sum = (l.map f).sum / c := by
  induction l with
  | nil => simp
  | cons a t ih => simp [ih, div_add_div_same]

/-- Sum of a list after subtracting a constant from every entry. -/
theorem list_sum_map_sub (l : List ℝ) (c : ℝ) :
    (l.map fun x => x - c).sum = l.sum - l.length * c := by
  induction l with
  | nil => simp
  | cons a t ih =>
    simp only [List.map_cons, List.sum_cons, ih, List.length_cons]
    push_cast
    ring

/-- Centred samples of a nonempty list sum to zero. -/
theorem list_sum_sub_mean (ys : List ℝ) (hne : ys ≠ []) :
    (ys.map fun x => x - listMean ys).sum = 0 := by
  have hn : (ys.length : ℝ) ≠ 0 := by
    simpa using hne
  rw [list_sum_map_sub, listMean, mul_div_cancel₀ _ hn, sub_self]

/-- A list containing two different values has positive variance. -/
theorem listVar_pos (ys : List ℝ) (a b : ℝ) (ha : a ∈ ys) (hb : b ∈ ys) (hab : a ≠ b) :
    0 < listVar ys := by
  have hne : ys ≠ [] := List.ne_nil_of_mem ha
  have hn : (0 : ℝ) < ys.length := by
    exact_mod_cast List.length_pos.mpr hne
  obtain ⟨x0, hx0, hx0ne⟩ : ∃ x0, x0 ∈ ys ∧ x0 ≠ listMean ys := by
    rcases eq_or_ne a (listMean ys) with h | h
    · exact ⟨b, hb, fun hc => hab (h.trans hc.symm)⟩
    · exact ⟨a, ha, h⟩
  have hmem : (x0 - listMean ys) ^ 2 ∈ ys.map fun x => (x - listMean ys) ^ 2 :=
    List.mem_map_of_mem _ hx0
  have hpos : 0 < (x0 - listMean ys) ^ 2 := by
    have : x0 - listMean ys ≠ 0 := sub_ne_zero.mpr hx0ne
    positivity
  have hsum : (x0 - listMean ys) ^ 2 ≤ (ys.map fun x => (x - listMean ys) ^ 2).sum := by
    refine List.single_le_sum ?_ _ hmem
    intro y hy
    obtain ⟨x, _, rfl⟩ := List.mem_map.mp hy
    positivity
  exact div_pos (lt_of_lt_of_le hpos hsum) hn

/-- The z-scored series of a nonempty list with nonzero standard
denominator has mean zero. -/
theorem listMean_zscore (ys : List ℝ) (hne : ys ≠ []) : listMean (zscore ys) = 0 := by
  have hn : (ys.length : ℝ) ≠ 0 := by
    simpa using hne
  unfold listMean zscore
  rw [list_sum_map_div ys (fun x => x - listMean ys) (Real.sqrt (listVar ys))]
  have h0 : (ys.map fun x => x - listMean ys).sum = 0 := list_sum_sub_mean ys hne
  rw [h0]
  simp

/-- The z-scored series of a list with positive variance has variance
one. -/
theorem listVar_zscore (ys : List ℝ) (hne : ys ≠ []) (hv : 0 < listVar ys) :
    listVar (zscore ys) = 1 := by
  have hmean := listMean_zscore ys hne
  unfold listVar
  rw [hmean]
  have hlen : ((zscore ys).length : ℝ) = (ys.length : ℝ) := by
    simp [zscore]
  rw [hlen]
  have hmaps : ((zscore ys).map fun y => (y - 0) ^ 2).sum =
      ((ys.map fun x => (x - listMean ys) ^ 2).sum) / listVar ys := by
    unfold zscore
    rw [List.map_map]
    have hcomp : ((fun y => (y - 0) ^ 2) ∘ fun x => (x - listMean ys) / Real.sqrt (listVar ys)) =
        fun x => ((x - listMean ys) ^ 2) / listVar ys := by
      funext x
      simp only [Function.comp_apply, sub_zero, div_pow]
      rw [Real.sq_sqrt hv.le]
    rw [hcomp]
    exact list_sum_map_div ys (fun x => (x - listMean ys) ^ 2) (listVar ys)
  rw [hmaps, div_div, mul_comm, ← div_div]
  have : ((ys.map fun x => (x - listMean ys) ^ 2).sum) / (ys.length : ℝ) = listVar ys := rfl
  rw [this, div_self hv.ne.symm]

/-- Variance of a constant series is zero (for the empty series both
numerator and denominator vanish and the convention 0 / 0 = 0 applies). -/
theorem listVar_replicate (n : ℕ) (c : ℝ) : listVar (List.replicate n c) = 0 := by
  cases n with
  | zero => simp [listVar, listMean]
  | succ k =>
    have hmean : listMean (List.replicate (k + 1) c) = c := by
      unfold listMean
      rw [List.sum_replicate, List.length_replicate, nsmul_eq_mul]
      push_cast
      have hk : ((k : ℝ) + 1) ≠ 0 := by positivity
      exact mul_div_cancel_left₀ c hk
    unfold listVar
    rw [hmean, List.map_replicate]
    simp

/-- C4: smoothing with the zscore method replaces each value by
(value - mean) / standard deviation over the whole series; on every
series containing two different values the output has mean exactly zero
and standard deviation exactly one; on a constant series the standard
deviation used as divisor is zero, so the pointwise division is a
division by zero. -/
theorem C4_zscore_normalises :
    (∀ (ys : List ℝ) (w p : ℕ),
      smooth_data ys "zscore" w p =
        .ok ((ys.map fun x => (x - listMean ys) / Real.sqrt (listVar ys)).map some)) ∧
    (∀ ys : List ℝ, (∃ a ∈ ys, ∃ b ∈ ys, a ≠ b) →
      listMean (zscore ys) = 0 ∧ Real.sqrt (listVar (zscore ys)) = 1) ∧
    (∀ (n : ℕ) (c : ℝ), Real.sqrt (listVar (List.replicate n c)) = 0) := by
  refine ⟨?_, ?_, ?_⟩
  · intro ys w p
    simp [smooth_data, zscore]
  · intro ys ⟨a, ha, b, hb, hab⟩
    have hne : ys ≠ [] := List.ne_nil_of_mem ha
    have hv : 0 < listVar ys := listVar_pos ys a b ha hb hab
    refine ⟨listMean_zscore ys hne, ?_⟩
    rw [listVar_zscore ys hne hv, Real.sqrt_one]
  · intro n c
    rw [listVar_replicate, Real.sqrt_zero]

/-- Witness for C4 on the concrete non-constant series [0, 2] and the
concrete constant series of three fours. -/
theorem C4_zscore_normalises_witness :
    (∃ a ∈ ([0, 2] : List ℝ), ∃ b ∈ ([0, 2] : List ℝ), a ≠ b) ∧
    (listMean (zscore [0, 2]) = 0 ∧ Real.sqrt (listVar (zscore [0, 2])) = 1) ∧
    Real.sqrt (listVar (List.replicate 3 (4 : ℝ))) = 0 :=
  ⟨⟨0, by simp, 2, by simp, by norm_num⟩,
   C4_zscore_normalises.2.1 [0, 2] ⟨0, by simp, 2, by simp, by norm_num⟩,
   C4_zscore_normalises.2.2 3 4⟩

/-- On a constant window of eleven samples the normal-equation right-hand
side is the constant times the first column of the moment matrix. -/
theorem momentVec_replicate_11 (c : ℝ) :
    momentVec (List.replicate 11 c) 3 = c • fun j : Fin 4 => momentMatrix 11 3 j 0 := by
  funext j
  unfold momentVec momentMatrix
  simp only [List.length_replicate, Pi.smul_apply, smul_eq_mul, Matrix.of_apply]
  rw [Finset.mul_sum]
  refine Finset.sum_congr rfl ?_
  intro x hx
  have hxlt : x < 11 := Finset.mem_range.mp hx
  have hget : (List.replicate 11 c).getD x 0 = c := by
    rw [List.getD_eq_getElem?_getD, List.getElem?_replicate, if_pos hxlt]
    rfl
  rw [hget]
  simp only [show ((0 : Fin 4) : ℕ) = 0 from rfl, Nat.add_zero, mul_comm]

/-- Cramer vector of the constant right-hand side: the determinant sits in
coefficient zero and all higher coefficients vanish. -/
theorem cramer_momentVec_replicate_11 (c : ℝ) :
    (momentMatrix 11 3).cramer (momentVec (List.replicate 11 c) 3) =
      c • (Pi.single (0 : Fin 4) (momentMatrix 11 3).det : Fin 4 → ℝ) := by
  rw [momentVec_replicate_11, map_smul]
  congr 1
  exact Matrix.cramer_row_self (momentMatrix 11 3) (fun j => momentMatrix 11 3 j 0) 0
    (fun j => rfl)

/-- The moment matrix of window eleven and degree three is the concrete
matrix of the power sums of 0, ..., 10. -/
theorem momentMatrix_11_eq :
    momentMatrix 11 3 =
      !![(11 : ℝ), 55, 385, 3025;
         55, 385, 3025, 25333;
         385, 3025, 25333, 220825;
         3025, 25333, 220825, 1978405] := by
  ext j k
  fin_cases j <;> fin_cases k <;>
    simp only [momentMatrix, Matrix.of_apply, show ((0 : Fin 4) : ℕ) = 0 from rfl,
      show ((1 : Fin 4) : ℕ) = 1 from rfl, show ((2 : Fin 4) : ℕ) = 2 from rfl,
      show ((3 : Fin 4) : ℕ) = 3 from rfl] <;>
    norm_num [Finset.sum_range_succ]

/-- The moment matrix of window eleven and degree three is invertible. -/
theorem det_momentMatrix_11_ne_zero : (momentMatrix 11 3).det ≠ 0 := by
  rw [momentMatrix_11_eq]
  simp only [Matrix.det_succ_row_zero, Fin.sum_univ_succ, Fin.succAbove, Fin.lt_def,
    Matrix.submatrix_apply, Matrix.cons_val_zero, Matrix.cons_val_one, Matrix.head_cons,
    Matrix.head_fin_const, Fin.val_succ, Matrix.cons_val_succ, Matrix.cons_val_fin_one,
    Fin.val_zero, Fin.castSucc, Fin.castAdd, Fin.castLE, Fin.succ]
  norm_num

/-- Least-squares cubic fit through eleven constant samples evaluates to
that constant everywhere. -/
theorem polyfitEval_replicate_11 (c t : ℝ) :
    polyfitEval (List.replicate 11 c) 3 t = c := by
  unfold polyfitEval
  simp only [List.length_replicate]
  rw [cramer_momentVec_replicate_11, Fin.sum_univ_four]
  have h0 : (Pi.single (0 : Fin 4) (momentMatrix 11 3).det : Fin 4 → ℝ) 0 =
      (momentMatrix 11 3).det := Pi.single_eq_same _ _
  have h1 : (Pi.single (0 : Fin 4) (momentMatrix 11 3).det : Fin 4 → ℝ) 1 = 0 :=
    Pi.single_eq_of_ne (by decide) _
  have h2 : (Pi.single (0 : Fin 4) (momentMatrix 11 3).det : Fin 4 → ℝ) 2 = 0 :=
    Pi.single_eq_of_ne (by decide) _
  have h3 : (Pi.single (0 : Fin 4) (momentMatrix 11 3).det : Fin 4 → ℝ) 3 = 0 :=
    Pi.single_eq_of_ne (by decide) _
  simp only [Pi.smul_apply, smul_eq_mul, h0, h1, h2, h3, mul_zero, zero_div, zero_mul,
    add_zero, show ((0 : Fin 4) : ℕ) = 0 from rfl, pow_zero, mul_one]
  rw [mul_div_assoc, div_self det_momentMatrix_11_ne_zero, mul_one]

/-- The interp smoothing pass with window eleven and degree three maps a
constant series of length at least eleven to itself: every output
position, interior or edge, is the value of a cubic fit through eleven
constant samples. -/
theorem savgolInterp_replicate (c : ℝ) (n : ℕ) (h : 11 ≤ n) :
    savgolInterp (List.replicate n c) 11 3 = List.replicate n c := by
  unfold savgolInterp
  simp only [List.length_replicate]
  rw [List.eq_replicate_iff]
  constructor
  · simp
  · intro b hb
    obtain ⟨i, hi, rfl⟩ := List.mem_map.mp hb
    have hin : i < n := List.mem_range.mp hi
    by_cases h5 : i < 11 / 2
    · rw [if_pos h5, List.take_replicate, Nat.min_eq_left h]
      exact polyfitEval_replicate_11 c _
    · rw [if_neg h5]
      by_cases h6 : i + 11 / 2 < n
      · rw [if_pos h6, List.drop_replicate, List.take_replicate,
          Nat.min_eq_left (by omega)]
        exact polyfitEval_replicate_11 c _
      · rw [if_neg h6, List.drop_replicate, show n - (n - 11) = 11 by omega]
        exact polyfitEval_replicate_11 c _

/-- C3: smoothing a constant series of length at least eleven with the
savgol method, window size eleven and polynomial order three returns the
same constant series unchanged. -/
theorem C3_savgol_constant_identity (c : ℝ) (n : ℕ) (h : 11 ≤ n) :
    smooth_data (List.replicate n c) "savgol" 11 3 =
      .ok (List.replicate n (some c)) := by
  have hs : savgol_filter (List.replicate n c) 11 3 = .ok (List.replicate n c) := by
    unfold savgol_filter
    rw [if_neg (by norm_num), if_neg (by norm_num),
      if_neg (by simp only [List.length_replicate]; omega)]
    rw [savgolInterp_replicate c n h]
  simp [smooth_data, hs, List.map_replicate]

/-- Witness for C3: the constant series of twelve fives is returned
unchanged. -/
theorem C3_savgol_constant_identity_witness :
    11 ≤ 12 ∧
    smooth_data (List.replicate 12 (5 : ℝ)) "savgol" 11 3 =
      .ok (List.replicate 12 (some (5 : ℝ))) :=
  ⟨by norm_num, C3_savgol_constant_identity 5 12 (by norm_num)⟩
